import Mathlib

/-!
Verification of the multi-task molecular data pipeline of `goli/data/datamodule.py`
(graphium repository) through a shallow embedding in Lean 4.

Conventions of the embedding:
* numpy float arrays are embedded as lists of rationals (`List ℚ`);
* pandas dataframes appear only through the columns/values the modelled code reads;
* fallible Python code (`raise`) is embedded as `Except String`;
* external collaborators (the featurization transform, the canonicalization
  function, sklearn's seeded shuffling) are parameters of the definitions,
  constrained only by the properties the library documents (e.g. a shuffle is a
  permutation).
-/

/-! ### `_extract_smiles_labels` — weight computation (datamodule.py lines 1556-1582)

`labels` is the row-major k×m numeric label matrix.  The Python code:

    ratio_pos_neg = np.sum(labels, axis=0, keepdims=1) / labels.shape[0]
    weights = np.zeros(labels.shape)
    weights[labels == 0] = ratio_pos_neg
    weights[labels == 1] = ratio_pos_neg**-1
    weights = np.prod(weights, axis=1)        # only for "sample_balanced"
    weights /= np.max(weights)
-/

/-- Number of label columns, `labels.shape[1]`. -/
def numLabelCols (labels : List (List ℚ)) : Nat := (labels.headD []).length

/-- `np.sum(labels, axis=0)` at column `j`. -/
def colSum (labels : List (List ℚ)) (j : Nat) : ℚ :=
  (labels.map (fun row => row.getD j 0)).sum

/-- `ratio_pos_neg = np.sum(labels, axis=0, keepdims=1) / labels.shape[0]`:
per column, the sum of the (0/1) labels divided by the number of rows. -/
def ratioPosNeg (labels : List (List ℚ)) : List ℚ :=
  (List.range (numLabelCols labels)).map (fun j => colSum labels j / (labels.length : ℚ))

/-- One row of `weights` before reduction: positions with label 0 receive
`ratio_pos_neg` for their column, positions with label 1 receive its inverse. -/
def balancedRow (ratios : List ℚ) (row : List ℚ) : List ℚ :=
  (row.zip ratios).map (fun p => if p.1 = 0 then p.2 else p.2⁻¹)

/-- The full `weights` matrix after the two masked assignments. -/
def balancedWeightsMatrix (labels : List (List ℚ)) : List (List ℚ) :=
  labels.map (balancedRow (ratioPosNeg labels))

/-- `np.max` over a 1-D array (the arrays in play are nonempty). -/
def npMaxList (l : List ℚ) : ℚ :=
  match l with
  | [] => 0
  | x :: xs => xs.foldl max x

/-- Result of the weight extraction: `sample_label_balanced` keeps the per-label
matrix, `sample_balanced` reduces it with `np.prod(weights, axis=1)`. -/
inductive WeightsResult where
  | perLabel (w : List (List ℚ))
  | perSample (w : List ℚ)
deriving DecidableEq

deriving instance DecidableEq for Except

/-- The `weights_type` branch of `_extract_smiles_labels` (lines 1559-1579):
binary check, the two balancing modes, then rescaling by the maximum weight. -/
def extractWeights (weightsType : String) (labels : List (List ℚ)) :
    Except String WeightsResult :=
  if labels.all (fun row => row.all (fun x => x == 0 || x == 1)) then
    if weightsType == "sample_label_balanced" then
      let w := balancedWeightsMatrix labels
      let mx := npMaxList w.flatten
      .ok (.perLabel (w.map (fun row => row.map (fun x => x / mx))))
    else if weightsType == "sample_balanced" then
      let w := (balancedWeightsMatrix labels).map (fun row => row.prod)
      let mx := npMaxList w
      .ok (.perSample (w.map (fun x => x / mx)))
    else
      .error ("Undefined `weights_type` " ++ weightsType)
  else
    .error ("Labels must be binary for `weights_type`")

/-! ### `BaseDataModule.__init__` (datamodule.py lines 80-127) and `predict_ds` -/

/-- The attributes of `BaseDataModule` relevant here.  Datasets are opaque
payloads (`Option Nat`), `none` standing for Python `None`. -/
structure BaseDataModuleState where
  batchSizeTraining : Nat
  batchSizeInference : Nat
  batchSizePerPack : Option Nat
  trainDs : Option Nat
  valDs : Option Nat
  testDs : Option Nat
  predictDsInternal : Option Nat
  dataIsPrepared : Bool
deriving DecidableEq

/-- The attribute assignments of `__init__` after the validation passed. -/
def defaultBaseState (bsT bsI : Nat) (pack : Option Nat) : BaseDataModuleState :=
  { batchSizeTraining := bsT
    batchSizeInference := bsI
    batchSizePerPack := pack
    trainDs := none
    valDs := none
    testDs := none
    predictDsInternal := none
    dataIsPrepared := false }

/-- `BaseDataModule.__init__`: when `batch_size_per_pack` is set, assert that it
divides `batch_size_training` and `batch_size_inference` (lines 107-114); an
assertion failure aborts construction before any dataset field is set. -/
def baseDataModuleInit (bsT bsI : Nat) (pack : Option Nat) :
    Except String BaseDataModuleState :=
  match pack with
  | none => .ok (defaultBaseState bsT bsI none)
  | some p =>
    if bsT % p == 0 then
      if bsI % p == 0 then
        .ok (defaultBaseState bsT bsI (some p))
      else
        .error ("batch_size_inference must be a multiple of batch_size_per_pack, provided batch_size_inference="
          ++ toString bsI ++ ", batch_size_per_pack=" ++ toString p)
    else
      .error ("batch_size_training must be a multiple of batch_size_per_pack, provided batch_size_training="
        ++ toString bsT ++ ", batch_size_per_pack=" ++ toString p)

/-- The `predict_ds` property (lines 203-209): fall back to `test_ds` while the
internal `_predict_ds` is `None`. -/
def predictDs (s : BaseDataModuleState) : Option Nat :=
  match s.predictDsInternal with
  | none => s.testDs
  | some v => some v

/-- The `predict_ds` setter (lines 223-226). -/
def setPredictDs (s : BaseDataModuleState) (value : Option Nat) : BaseDataModuleState :=
  { s with predictDsInternal := value }

/-! ### Theorems for C1, C4, C10 -/

/-- Evaluation of the `sample_balanced` branch on the example column
`[0,0,1,1,1]`: the code's `ratio_pos_neg` is `3/5`, giving raw weights
`[3/5, 3/5, 5/3, 5/3, 5/3]` and, after dividing by the maximum `5/3`, the
vector `[9/25, 9/25, 1, 1, 1]`. -/
theorem extractWeights_binary_example :
    extractWeights "sample_balanced" [[0], [0], [1], [1], [1]]
        = .ok (.perSample [9/25, 9/25, 1, 1, 1]) := by
  norm_num [extractWeights, balancedWeightsMatrix, balancedRow, ratioPosNeg, colSum,
    numLabelCols, List.range_succ, npMaxList]
  exact fun h => absurd h (by decide)

/-- C1 counterexample: on the single binary column `[0,0,1,1,1]` with
`weights_type="sample_balanced"`, the code computes `ratio_pos_neg = 3/5`
(positives over rows), not `2/5`, and the returned weight vector is
`[0.36, 0.36, 1, 1, 1]`, not `[0.16, 0.16, 1, 1, 1]` as claimed. -/
theorem c1_sample_balanced_counterexample :
    ratioPosNeg [[0], [0], [1], [1], [1]] ≠ [2/5]
    ∧ extractWeights "sample_balanced" [[0], [0], [1], [1], [1]]
        ≠ .ok (.perSample [16/100, 16/100, 1, 1, 1]) := by
  constructor
  · norm_num [ratioPosNeg, colSum, numLabelCols, List.range_succ]
  · rw [extractWeights_binary_example]
    intro hEq
    norm_num at hEq

/-- C1 amended: for the single binary column `[0,0,1,1,1]` with
`weights_type="sample_balanced"`, `_extract_smiles_labels` computes
`ratio_pos_neg = 3/5 = 0.6` (the fraction of positive rows), assigns weight
`0.6` to rows with label 0 and `5/3` to rows with label 1, and after rescaling
so the maximum weight is 1 returns the weight vector `[0.36, 0.36, 1, 1, 1]`. -/
theorem c1_sample_balanced_amended :
    ratioPosNeg [[0], [0], [1], [1], [1]] = [3/5]
    ∧ balancedWeightsMatrix [[0], [0], [1], [1], [1]]
        = [[3/5], [3/5], [5/3], [5/3], [5/3]]
    ∧ extractWeights "sample_balanced" [[0], [0], [1], [1], [1]]
        = .ok (.perSample [9/25, 9/25, 1, 1, 1]) := by
  refine ⟨?_, ?_, extractWeights_binary_example⟩
  · norm_num [ratioPosNeg, colSum, numLabelCols, List.range_succ]
  · norm_num [balancedWeightsMatrix, balancedRow, ratioPosNeg, colSum, numLabelCols,
      List.range_succ]

/-- C4: constructing the data module with `batch_size_training=32` and
`batch_size_per_pack=5` (inference batch size at its default 16) fails at
construction time with the divisibility error, while `batch_size_per_pack=8`
succeeds and yields the freshly initialised state (no data loaded yet). -/
theorem c4_pack_size_validation :
    baseDataModuleInit 32 16 (some 5)
      = .error ("batch_size_training must be a multiple of batch_size_per_pack, provided batch_size_training=32, batch_size_per_pack=5")
    ∧ baseDataModuleInit 32 16 (some 8) = .ok (defaultBaseState 32 16 (some 8)) := by
  decide

/-- C10: while the internal predict dataset is `None`, `predict_ds` returns
`test_ds`; after assigning a dataset through the setter, `predict_ds` returns
exactly the assigned value. -/
theorem c10_predict_ds_fallback (s : BaseDataModuleState) (v : Nat)
    (h : s.predictDsInternal = none) :
    predictDs s = s.testDs ∧ predictDs (setPredictDs s (some v)) = some v := by
  constructor
  · simp [predictDs, h]
  · simp [predictDs, setPredictDs]

/-- C10 witness: the fallback and the setter behaviour at a concrete state. -/
theorem c10_predict_ds_fallback_witness :
    predictDs (defaultBaseState 16 16 none) = (defaultBaseState 16 16 none).testDs
    ∧ predictDs (setPredictDs (defaultBaseState 16 16 none) (some 7)) = some 7 :=
  c10_predict_ds_fallback (defaultBaseState 16 16 none) 7 rfl

/-! ### `_extract_smiles_labels` — SMILES column search (lines 1527-1536) and
`_read_table` — empty glob check (lines 436-438) -/

/-- Whether `sub` stands at the head of `l` (used to build Python's `in`). -/
def charListStartsWith : List Char → List Char → Bool
  | _, [] => true
  | [], _ :: _ => false
  | a :: as, b :: bs => a == b && charListStartsWith as bs

/-- Whether `sub` occurs contiguously inside `l` (Python's `sub in l`). -/
def charListContains : List Char → List Char → Bool
  | [], sub => charListStartsWith [] sub
  | a :: as, sub => charListStartsWith (a :: as) sub || charListContains as sub

/-- Python's substring test `sub in s`. -/
def strContains (s sub : String) : Bool := charListContains s.toList sub.toList

/-- The comprehension filter `"smile" in str(col).lower()` (line 1528):
lowercase the column name character-wise, then look for "smile". -/
def hasSmileName (col : String) : Bool :=
  charListContains (col.toList.map Char.toLower) "smile".toList

/-- Lines 1527-1536 of `_extract_smiles_labels`: when no SMILES column name is
supplied, search the dataframe columns case-insensitively for names containing
"smile"; fail when zero or several match, otherwise use the single match. -/
def findSmilesCol (cols : List String) : Except String String :=
  let smilesColAll := cols.filter hasSmileName
  if smilesColAll.length == 0 then
    .error ("No SMILES column found in dataframe. Columns are " ++ toString cols)
  else if 1 < smilesColAll.length then
    .error ("Multiple SMILES column found in dataframe. SMILES Columns are "
      ++ toString smilesColAll)
  else
    .ok (smilesColAll.headD "")

/-- The empty-glob check at the head of `BaseDataModule._read_table` (lines
436-438).  `files` is the result of the external glob resolution of `path`.
Line 438 of the source passes a plain string literal (no `f` prefix) to
`FileNotFoundError`, so the braces in it are not interpolated and the message
is this constant. -/
def readTableCheckFiles (path : String) (files : List String) :
    Except String (List String) :=
  if files.length == 0 then
    .error ("No such file or directory `{path}`")
  else
    .ok files

/-- C9: when no SMILES column name is supplied, the case-insensitive search
over the dataframe columns uses the single match as the id column when exactly
one column name contains "smile", and errors naming the columns (all of them,
resp. the matching ones) when zero or several match. -/
theorem c9_smiles_column_search (cols : List String) :
    (cols.filter hasSmileName = [] →
      findSmilesCol cols
        = .error ("No SMILES column found in dataframe. Columns are " ++ toString cols))
    ∧ (∀ c, cols.filter hasSmileName = [c] → findSmilesCol cols = .ok c)
    ∧ (∀ c c' rest, cols.filter hasSmileName = c :: c' :: rest →
      findSmilesCol cols
        = .error ("Multiple SMILES column found in dataframe. SMILES Columns are "
            ++ toString (c :: c' :: rest))) := by
  refine ⟨fun h => ?_, fun c h => ?_, fun c c' rest h => ?_⟩
  · simp [findSmilesCol, h]
  · simp [findSmilesCol, h]
  · simp [findSmilesCol, h]

/-- C9 witness: the three branches at concrete column lists. -/
theorem c9_smiles_column_search_witness :
    findSmilesCol ["mol_ID", "Smiles", "target"] = .ok "Smiles"
    ∧ findSmilesCol ["mol_ID", "target"]
        = .error ("No SMILES column found in dataframe. Columns are "
            ++ toString ["mol_ID", "target"])
    ∧ findSmilesCol ["smiles", "SMILES_canonical"]
        = .error ("Multiple SMILES column found in dataframe. SMILES Columns are "
            ++ toString ["smiles", "SMILES_canonical"]) :=
  ⟨(c9_smiles_column_search ["mol_ID", "Smiles", "target"]).2.1 "Smiles" (by decide),
   (c9_smiles_column_search ["mol_ID", "target"]).1 (by decide),
   (c9_smiles_column_search ["smiles", "SMILES_canonical"]).2.2 "smiles" "SMILES_canonical" []
     (by decide)⟩

/-- C8 (code bug): a path whose glob resolves to no files makes `_read_table`
raise `FileNotFoundError` immediately, but — the string literal on line 438
lacking the `f` prefix — the message is the constant
`` No such file or directory `{path}` ``: it does not contain the offending
path, and is the same for every path. -/
theorem c8_read_table_empty_glob :
    readTableCheckFiles "data/missing_mols_*.csv" []
      = .error ("No such file or directory `{path}`")
    ∧ strContains ("No such file or directory `{path}`") ("data/missing_mols_*.csv") = false
    ∧ ∀ p p', readTableCheckFiles p [] = readTableCheckFiles p' [] :=
  ⟨rfl, by decide, fun p p' => rfl⟩

/-! ### `prepare_data` / cache state machine
(`MultitaskFromSmilesDataModule`, datamodule.py lines 862-888, 1689-1835)

The DataModule attributes touched by the caching logic are embedded as a
record; dataset payloads are opaque (`Nat`), per-task dictionaries are
association lists keyed by task name.  The filesystem visible to
`torch.save`/`torch.load` is an association list from file names to cache
entries; a `corrupt` entry is one on which `torch.load` raises.  The body of
the preparation pipeline (lines 890-1046: dataframe loading, extraction,
featurization, splitting) is passed as an abstract state transformer
`pipeline`, since the claims below only concern the control flow around it. -/

/-- A log line, tagged with the loguru level used by the source. -/
inductive LogMsg where
  | info (msg : String)
  | warning (msg : String)
deriving DecidableEq

/-- The dictionary saved by `save_data_to_cache` (lines 1733-1738). -/
structure SavedParams where
  singleTaskDatasets : List (String × Nat)
  taskTrainIndices : List (String × List Nat)
  taskValIndices : List (String × List Nat)
  taskTestIndices : List (String × List Nat)
deriving DecidableEq

/-- A cache file: either deserializes to its saved params or raises. -/
inductive CacheEntry where
  | corrupt
  | good (params : SavedParams)
deriving DecidableEq

/-- The on-disk cache directory: file name ↦ entry. -/
abbrev FileSys : Type := List (String × CacheEntry)

/-- Lookup of a file (`fs.exists` + `torch.load`). -/
def fsysLookup (fsys : FileSys) (k : String) : Option CacheEntry :=
  (fsys.find? (fun p => p.1 == k)).map Prod.snd

/-- Association-list read with default, for the per-task dictionaries. -/
def alookupD {α : Type} (l : List (String × α)) (k : String) (d : α) : α :=
  ((l.find? (fun p => p.1 == k)).map Prod.snd).getD d

/-- The `MultitaskFromSmilesDataModule` attributes the cache logic touches. -/
structure MTDMState where
  cacheDataPath : Option String
  dataHash : String
  singleTaskDatasets : List (String × Nat)
  taskTrainIndices : List (String × List Nat)
  taskValIndices : List (String × List Nat)
  taskTestIndices : List (String × List Nat)
  trainSingletaskDatasets : List (String × Nat × List Nat)
  valSingletaskDatasets : List (String × Nat × List Nat)
  testSingletaskDatasets : List (String × Nat × List Nat)
  dataIsPrepared : Bool
deriving DecidableEq

/-- `get_data_cache_fullname` (lines 1701-1716, `compress=False`):
`cache_data_path/{data_hash}.datacache`, or `None` without a cache path. -/
def getDataCacheFullname (s : MTDMState) : Option String :=
  s.cacheDataPath.map (fun p => p ++ "/" ++ s.dataHash ++ ".datacache")

/-- `get_subsets_of_datasets` (lines 1808-1835): for each task key of the train
index dictionary, pair the task's dataset with its train/val/test index list
(`torch.utils.data.Subset(dataset, indices)`). -/
def getSubsetsOfDatasets (ds : List (String × Nat))
    (tr va te : List (String × List Nat)) :
    List (String × Nat × List Nat) × List (String × Nat × List Nat)
      × List (String × Nat × List Nat) :=
  ( tr.map (fun p => (p.1, alookupD ds p.1 0, p.2))
  , tr.map (fun p => (p.1, alookupD ds p.1 0, alookupD va p.1 []))
  , tr.map (fun p => (p.1, alookupD ds p.1 0, alookupD te p.1 [])) )

/-- `load_data_from_cache` (lines 1752-1806, default `verbose=True`): no cache
path or missing file is a miss; a file whose deserialization raises is caught,
logged as a warning and reported as a miss (`False`); a good file restores the
four saved dictionaries and recomputes the per-stage subsets.  Returns the new
state, the `cache_data_exists` boolean and the log lines. -/
def loadDataFromCache (fsys : FileSys) (s : MTDMState) :
    MTDMState × Bool × List LogMsg :=
  match getDataCacheFullname s with
  | none =>
    (s, false, [.info ("No cache data path specified. Skipping loading the data from cache.")])
  | some fn =>
    match fsysLookup fsys fn with
    | none =>
      (s, false,
        [.info ("Data cache not found at path: `" ++ fn
          ++ "`.\nThe data will be prepared and cache will be created for future runs.")])
    | some .corrupt =>
      (s, false,
        [.info ("Loading the data from cache at path `" ++ fn ++ "`"),
         .warning ("Data cache failed to load path: `" ++ fn
          ++ "`.\nThe data will be prepared and cache will be created for future runs.")])
    | some (.good params) =>
      let subs := getSubsetsOfDatasets params.singleTaskDatasets
        params.taskTrainIndices params.taskValIndices params.taskTestIndices
      ({ s with
          singleTaskDatasets := params.singleTaskDatasets
          taskTrainIndices := params.taskTrainIndices
          taskValIndices := params.taskValIndices
          taskTestIndices := params.taskTestIndices
          trainSingletaskDatasets := subs.1
          valSingletaskDatasets := subs.2.1
          testSingletaskDatasets := subs.2.2 },
        true,
        [.info ("Loading the data from cache at path `" ++ fn ++ "`"),
         .info ("Successfully loaded the data from cache at path: `" ++ fn ++ "`")])

/-- `save_data_to_cache` (lines 1718-1750): without a cache path only log;
otherwise serialize the four dictionaries under the hash-keyed file name
(overwriting any previous file). -/
def saveDataToCache (fsys : FileSys) (s : MTDMState) : FileSys × List LogMsg :=
  match getDataCacheFullname s with
  | none =>
    (fsys, [.info ("No cache data path specified. Skipping saving the data to cache.")])
  | some fn =>
    ((fn, .good ⟨s.singleTaskDatasets, s.taskTrainIndices, s.taskValIndices,
        s.taskTestIndices⟩) :: fsys,
      [.info ("Saving the data to cache at path:\n`" ++ fn ++ "`")])

/-- `prepare_data` (lines 862-1052): skip when already prepared; on a cache hit
mark prepared (the hit branch also refreshes label statistics, an external
effect not modelled); otherwise run the preparation pipeline, save to cache
when a cache path is configured, and mark prepared. -/
def prepareData (pipeline : MTDMState → MTDMState) (fsys : FileSys) (s : MTDMState) :
    MTDMState × FileSys × List LogMsg :=
  if s.dataIsPrepared then
    (s, fsys, [.info ("Data is already prepared. Skipping the preparation")])
  else
    match loadDataFromCache fsys s with
    | (s1, loaded, logs) =>
      if loaded then
        ({ s1 with dataIsPrepared := true }, fsys, logs)
      else
        let s2 := pipeline s1
        let saved := if s2.cacheDataPath.isSome then saveDataToCache fsys s2 else (fsys, [])
        ({ s2 with dataIsPrepared := true }, saved.1, logs ++ saved.2)

/-- The empty state of a freshly constructed module with a given configuration
(cache path and the `get_data_hash` fingerprint the configuration determines). -/
def freshModule (cachePath : Option String) (hash : String) : MTDMState :=
  { cacheDataPath := cachePath
    dataHash := hash
    singleTaskDatasets := []
    taskTrainIndices := []
    taskValIndices := []
    taskTestIndices := []
    trainSingletaskDatasets := []
    valSingletaskDatasets := []
    testSingletaskDatasets := []
    dataIsPrepared := false }

/-- A concrete prepared DataModule state used by the cache witnesses. -/
def exampleState : MTDMState :=
  { cacheDataPath := some "cache"
    dataHash := "abc"
    singleTaskDatasets := [("tox", 3), ("sol", 4)]
    taskTrainIndices := [("tox", [0, 2]), ("sol", [1])]
    taskValIndices := [("tox", [1]), ("sol", [0])]
    taskTestIndices := [("tox", [3]), ("sol", [2])]
    trainSingletaskDatasets := []
    valSingletaskDatasets := []
    testSingletaskDatasets := []
    dataIsPrepared := true }

/-- C7: calling `prepare_data` when the prepared flag is already set leaves the
state and the cache untouched and only logs a message — no error, no redone
work (the returned state, filesystem and log are exactly the input state, the
input filesystem and the one log line). -/
theorem c7_prepare_data_idempotent (pipeline : MTDMState → MTDMState)
    (fsys : FileSys) (s : MTDMState) (h : s.dataIsPrepared = true) :
    prepareData pipeline fsys s
      = (s, fsys, [.info ("Data is already prepared. Skipping the preparation")]) := by
  simp [prepareData, h]

/-- C7 witness: the no-op at a concrete prepared state. -/
theorem c7_prepare_data_idempotent_witness :
    prepareData id [] exampleState
      = (exampleState, [], [.info ("Data is already prepared. Skipping the preparation")]) :=
  c7_prepare_data_idempotent id [] exampleState rfl

/-- C5: when the configured cache file exists but fails to deserialize,
`load_data_from_cache` returns `False` after logging a warning, and
`prepare_data` then runs the full pipeline from scratch (its resulting state is
the pipeline's output, marked prepared); the corrupt cache never aborts the
run — both functions are total and return normally. -/
theorem c5_corrupt_cache_recovery (pipeline : MTDMState → MTDMState)
    (fsys : FileSys) (s : MTDMState) (fn : String)
    (hprep : s.dataIsPrepared = false)
    (hfn : getDataCacheFullname s = some fn)
    (hcor : fsysLookup fsys fn = some .corrupt) :
    (loadDataFromCache fsys s).2.1 = false
    ∧ LogMsg.warning ("Data cache failed to load path: `" ++ fn
        ++ "`.\nThe data will be prepared and cache will be created for future runs.")
      ∈ (loadDataFromCache fsys s).2.2
    ∧ (prepareData pipeline fsys s).1 = { pipeline s with dataIsPrepared := true } := by
  have hload : loadDataFromCache fsys s
      = (s, false,
          [.info ("Loading the data from cache at path `" ++ fn ++ "`"),
           .warning ("Data cache failed to load path: `" ++ fn
            ++ "`.\nThe data will be prepared and cache will be created for future runs.")]) := by
    simp [loadDataFromCache, hfn, hcor]
  refine ⟨by simp [hload], by simp [hload], ?_⟩
  simp [prepareData, hprep, hload]

/-- C5 witness: recovery from a concrete corrupt cache entry. -/
theorem c5_corrupt_cache_recovery_witness :
    (loadDataFromCache [("cache/abc.datacache", .corrupt)]
        (freshModule (some "cache") "abc")).2.1 = false
    ∧ LogMsg.warning ("Data cache failed to load path: `" ++ "cache/abc.datacache"
        ++ "`.\nThe data will be prepared and cache will be created for future runs.")
      ∈ (loadDataFromCache [("cache/abc.datacache", .corrupt)]
          (freshModule (some "cache") "abc")).2.2
    ∧ (prepareData (fun t => { t with singleTaskDatasets := [("tox", 3)] })
        [("cache/abc.datacache", .corrupt)] (freshModule (some "cache") "abc")).1
      = { (fun (t : MTDMState) => { t with singleTaskDatasets := [("tox", 3)] })
            (freshModule (some "cache") "abc") with dataIsPrepared := true } :=
  c5_corrupt_cache_recovery (fun t => { t with singleTaskDatasets := [("tox", 3)] })
    [("cache/abc.datacache", .corrupt)] (freshModule (some "cache") "abc")
    "cache/abc.datacache" rfl rfl (by decide)

/-- C6: saving a prepared module's state to cache and reloading it on a fresh
module with the same configuration (hence the same cache path and data hash)
succeeds and restores the single-task datasets and the per-task
train/val/test split index dictionaries exactly as they were before saving
(serialization modelled as faithful, per `torch.save`/`torch.load`). -/
theorem c6_cache_round_trip (fsys : FileSys) (s : MTDMState) (p : String)
    (h : s.cacheDataPath = some p) :
    (loadDataFromCache (saveDataToCache fsys s).1
        (freshModule s.cacheDataPath s.dataHash)).2.1 = true
    ∧ (loadDataFromCache (saveDataToCache fsys s).1
        (freshModule s.cacheDataPath s.dataHash)).1.singleTaskDatasets
      = s.singleTaskDatasets
    ∧ (loadDataFromCache (saveDataToCache fsys s).1
        (freshModule s.cacheDataPath s.dataHash)).1.taskTrainIndices
      = s.taskTrainIndices
    ∧ (loadDataFromCache (saveDataToCache fsys s).1
        (freshModule s.cacheDataPath s.dataHash)).1.taskValIndices
      = s.taskValIndices
    ∧ (loadDataFromCache (saveDataToCache fsys s).1
        (freshModule s.cacheDataPath s.dataHash)).1.taskTestIndices
      = s.taskTestIndices := by
  simp [loadDataFromCache, saveDataToCache, getDataCacheFullname, freshModule, fsysLookup, h]

/-- C6 witness: the round trip at a concrete prepared state. -/
theorem c6_cache_round_trip_witness :
    (loadDataFromCache (saveDataToCache [] exampleState).1
        (freshModule exampleState.cacheDataPath exampleState.dataHash)).2.1 = true
    ∧ (loadDataFromCache (saveDataToCache [] exampleState).1
        (freshModule exampleState.cacheDataPath exampleState.dataHash)).1.singleTaskDatasets
      = exampleState.singleTaskDatasets
    ∧ (loadDataFromCache (saveDataToCache [] exampleState).1
        (freshModule exampleState.cacheDataPath exampleState.dataHash)).1.taskTrainIndices
      = exampleState.taskTrainIndices
    ∧ (loadDataFromCache (saveDataToCache [] exampleState).1
        (freshModule exampleState.cacheDataPath exampleState.dataHash)).1.taskValIndices
      = exampleState.taskValIndices
    ∧ (loadDataFromCache (saveDataToCache [] exampleState).1
        (freshModule exampleState.cacheDataPath exampleState.dataHash)).1.taskTestIndices
      = exampleState.taskTestIndices :=
  c6_cache_round_trip [] exampleState "cache" rfl

/-! ### `prepare_data` — deduplicated featurization (datamodule.py lines 950-985)

    all_mol_ids = smiles_to_unique_mol_ids(all_smiles, ...)
    unique_mol_ids, unique_idx, inv = np.unique(all_mol_ids, return_index=True, return_inverse=True)
    smiles_to_featurize = [all_smiles[ii] for ii in unique_idx]
    features, _ = self._featurize_molecules(smiles_to_featurize)
    all_features = [features[unique_idx] for unique_idx in inv]

`canon` stands for the element-wise canonicalization `smiles_to_unique_mol_ids`
and `f` for the featurization transform applied to each entry of
`smiles_to_featurize`; both are external collaborators and appear as
parameters.  Features are opaque payloads (`Nat`); a stored feature is
reference-equal to a computed one exactly when it is the same entry of the
`features` list, which the embedding captures as equality of the indexed
values. -/

/-- `np.unique(l)`: the distinct values of `l` in sorted order. -/
def npUniqueVals (l : List String) : List String := (l.dedup).insertionSort (· ≤ ·)

/-- `np.unique(l, return_index=True)`: for each unique value, the index of its
first occurrence in `l`. -/
def npUniqueIdx (l : List String) : List Nat :=
  (npUniqueVals l).map (fun v => l.indexOf v)

/-- `np.unique(l, return_inverse=True)`: for each position of `l`, the index
into the unique array holding its value. -/
def npUniqueInv (l : List String) : List Nat :=
  l.map (fun x => (npUniqueVals l).indexOf x)

/-- Lines 950-985 of `prepare_data`: canonicalize the combined SMILES list,
featurize one representative per unique molecule id (the first occurrence),
and fan the computed features back out to every input row through the inverse
mapping.  Returns `(smiles_to_featurize, all_features)`. -/
def prepareUniqueFeatures (canon : String → String) (f : String → Nat)
    (allSmiles : List String) : List String × List Nat :=
  let allMolIds := allSmiles.map canon
  let smilesToFeaturize := (npUniqueIdx allMolIds).map (fun ii => allSmiles.getD ii "")
  let features := smilesToFeaturize.map f
  (smilesToFeaturize, (npUniqueInv allMolIds).map (fun j => features.getD j 0))

/-- Membership in the unique array is membership in the input. -/
theorem npUniqueVals_mem {l : List String} {a : String} : a ∈ npUniqueVals l ↔ a ∈ l := by
  rw [npUniqueVals, List.mem_insertionSort, List.mem_dedup]

/-- The unique array has one entry per distinct value of the input. -/
theorem npUniqueVals_length (l : List String) :
    (npUniqueVals l).length = l.dedup.length :=
  (List.perm_insertionSort _ _).length_eq

/-- C2: over any combined multi-task SMILES list, the featurization transform
is applied to exactly `u` strings, `u` being the number of distinct canonical
molecule ids; the fanned-out feature list covers every input row; and row `i`'s
stored feature is the feature computed for the first occurrence of row `i`'s
canonical id (the entry of `features` shared by reference among all rows of
that id — in the embedding, the value `f` takes at that first occurrence). -/
theorem c2_dedup_featurize_once (canon : String → String) (f : String → Nat)
    (allSmiles : List String) (i : Nat) (hi : i < allSmiles.length) :
    (prepareUniqueFeatures canon f allSmiles).1.length
      = (allSmiles.map canon).dedup.length
    ∧ (prepareUniqueFeatures canon f allSmiles).2.length = allSmiles.length
    ∧ (prepareUniqueFeatures canon f allSmiles).2.getD i 0
      = f (allSmiles.getD
          ((allSmiles.map canon).indexOf (canon (allSmiles.getD i ""))) "") := by
  set ids := allSmiles.map canon with hids
  have hlenvals : (npUniqueVals ids).length = ids.dedup.length := npUniqueVals_length ids
  refine ⟨?_, ?_, ?_⟩
  · simp [prepareUniqueFeatures, npUniqueIdx, hlenvals, hids]
  · simp [prepareUniqueFeatures, npUniqueInv, hids]
  · have hi' : i < ids.length := by simpa [hids] using hi
    have hgetid : canon (allSmiles.getD i "") = ids[i] := by
      rw [List.getD_eq_getElem _ _ hi]
      simp [hids]
    have hmem : ids[i] ∈ npUniqueVals ids := npUniqueVals_mem.mpr (List.getElem_mem hi')
    have hj : (npUniqueVals ids).indexOf ids[i] < (npUniqueVals ids).length :=
      List.indexOf_lt_length.mpr hmem
    have hinvlen : i < (npUniqueInv ids).length := by simpa [npUniqueInv] using hi'
    have hfeatlen : (npUniqueVals ids).indexOf ids[i]
        < ((npUniqueIdx ids).map (fun ii => allSmiles.getD ii "")).length := by
      simpa [npUniqueIdx] using hj
    simp only [prepareUniqueFeatures]
    rw [List.getD_eq_getElem _ _ (by simpa [prepareUniqueFeatures] using hinvlen)]
    rw [List.getElem_map]
    have hinv : (npUniqueInv ids)[i] = (npUniqueVals ids).indexOf ids[i] := by
      simp [npUniqueInv]
    rw [hinv]
    rw [List.getD_eq_getElem _ _ (by simpa using hfeatlen)]
    rw [List.getElem_map, List.getElem_map]
    have hjIdx : (npUniqueVals ids).indexOf ids[i] < (npUniqueIdx ids).length := by
      simpa [npUniqueIdx] using hj
    have hidx : (npUniqueIdx ids)[(npUniqueVals ids).indexOf ids[i]]
        = ids.indexOf ((npUniqueVals ids)[(npUniqueVals ids).indexOf ids[i]]) := by
      simp [npUniqueIdx]
    rw [hidx, List.getElem_indexOf hj, hgetid]

/-- A toy canonicalization: "OCC" and "CCO" denote the same molecule. -/
def canonExample : String → String := fun s => if s == "OCC" then "CCO" else s

/-- C2 witness: three input rows, two unique molecules, evaluated at row 2. -/
theorem c2_dedup_featurize_once_witness :
    (prepareUniqueFeatures canonExample String.length ["CCO", "OCC", "CCC"]).1.length
      = (["CCO", "OCC", "CCC"].map canonExample).dedup.length
    ∧ (prepareUniqueFeatures canonExample String.length ["CCO", "OCC", "CCC"]).2.length
      = ["CCO", "OCC", "CCC"].length
    ∧ (prepareUniqueFeatures canonExample String.length ["CCO", "OCC", "CCC"]).2.getD 2 0
      = String.length (["CCO", "OCC", "CCC"].getD
          ((["CCO", "OCC", "CCC"].map canonExample).indexOf
            (canonExample (["CCO", "OCC", "CCC"].getD 2 ""))) "") :=
  c2_dedup_featurize_once canonExample String.length ["CCO", "OCC", "CCC"] 2 (by decide)

/-! ### `_get_split_indices` — random splitting (datamodule.py lines 1584-1661)

    train_indices, val_test_indices = train_test_split(sample_idx, test_size=split_val + split_test, ...)
    sub_split_test = split_test / (split_test + split_val)
    val_indices, test_indices = train_test_split(val_test_indices, test_size=sub_split_test, ...)
    _, train_idx, _ = np.intersect1d(sample_idx, train_indices, return_indices=True)
    ...

Row values are `Nat` (the `df.index` values).  sklearn's seeded shuffling is
I/O-free pseudo-randomness external to this repository; it enters as the
`shuffle1`/`shuffle2` parameters, constrained to permute their input — which
holds for every seed — so the theorem quantifies over all seeds at once. -/

/-- `sklearn.train_test_split(arr, test_size, random_state)` after the seeded
shuffle has been applied: `n_test = ceil(test_size * n)` rows go to the second
component (test), the remaining `n - n_test` to the first (train). -/
def trainTestSplit (shuffled : List Nat) (testSize : ℚ) : List Nat × List Nat :=
  let nTest := (Int.ceil (testSize * (shuffled.length : ℚ))).toNat
  (shuffled.drop nTest, shuffled.take nTest)

/-- The index component of `np.intersect1d(ar1, ar2, return_indices=True)`
(used on lines 1654-1659): the sorted distinct values common to both arrays,
each replaced by the index of its first occurrence in `ar1`. -/
def intersect1dIdx (ar1 ar2 : List Nat) : List Nat :=
  (((ar1.filter (fun v => decide (v ∈ ar2))).dedup).insertionSort (· ≤ ·)).map
    (fun v => ar1.indexOf v)

/-- The random branch (`splits_path=None`) of `_get_split_indices`
(lines 1610-1632): split off `split_val+split_test` of the seeded shuffle of
`sample_idx` as a holdout, then sub-split the holdout into val/test with
fraction `split_test/(split_test+split_val)`; degenerate fractions short-cut
to all-train resp. all-val.  `shuffle1`/`shuffle2` stand for sklearn's seeded
permutations in the two `train_test_split` calls. -/
def splitValueLists (shuffle1 shuffle2 : List Nat → List Nat) (sampleIdx : List Nat)
    (splitVal splitTest : ℚ) : List Nat × List Nat × List Nat :=
  let tv := if 0 < splitTest + splitVal
    then trainTestSplit (shuffle1 sampleIdx) (splitVal + splitTest)
    else (sampleIdx, [])
  let subSplitTest := if 0 < splitTest + splitVal
    then splitTest / (splitTest + splitVal) else 0
  let vt := if 0 < splitTest
    then trainTestSplit (shuffle2 tv.2) subSplitTest
    else (tv.2, [])
  (tv.1, vt.1, vt.2)

/-- `_get_split_indices` (lines 1584-1661, random branch): compute the three
value lists, then filter each against `sample_idx` with
`np.intersect1d(..., return_indices=True)`, returning position lists. -/
def getSplitIndices (shuffle1 shuffle2 : List Nat → List Nat) (sampleIdx : List Nat)
    (splitVal splitTest : ℚ) : List Nat × List Nat × List Nat :=
  let v := splitValueLists shuffle1 shuffle2 sampleIdx splitVal splitTest
  (intersect1dIdx sampleIdx v.1, intersect1dIdx sampleIdx v.2.1,
    intersect1dIdx sampleIdx v.2.2)

/-- Every returned position is the first occurrence of a common value. -/
theorem intersect1dIdx_mem {S A : List Nat} {x : Nat} (hx : x ∈ intersect1dIdx S A) :
    ∃ v, v ∈ S ∧ v ∈ A ∧ x = S.indexOf v := by
  simp only [intersect1dIdx, List.mem_map, List.mem_insertionSort, List.mem_dedup,
    List.mem_filter, decide_eq_true_eq] at hx
  obtain ⟨v, ⟨hvS, hvA⟩, rfl⟩ := hx
  exact ⟨v, hvS, hvA, rfl⟩

/-- Filtering two value-disjoint lists yields disjoint position lists. -/
theorem intersect1dIdx_disjoint {S A B : List Nat} (h : ∀ v ∈ A, v ∉ B) :
    (intersect1dIdx S A).Disjoint (intersect1dIdx S B) := by
  intro x hxA hxB
  obtain ⟨v, hvS, hvA, rfl⟩ := intersect1dIdx_mem hxA
  obtain ⟨w, hwS, hwB, heq⟩ := intersect1dIdx_mem hxB
  have hv' : S.indexOf v < S.length := List.indexOf_lt_length.mpr hvS
  have hw' : S.indexOf w < S.length := List.indexOf_lt_length.mpr hwS
  have hvw : v = w := by
    have h1 : S.getD (S.indexOf v) 0 = v := by
      rw [List.getD_eq_getElem S 0 hv']
      exact List.getElem_indexOf hv'
    have h2 : S.getD (S.indexOf w) 0 = w := by
      rw [List.getD_eq_getElem S 0 hw']
      exact List.getElem_indexOf hw'
    rw [← h1, ← h2, heq]
  exact h v hvA (hvw ▸ hwB)

/-- The returned positions are pairwise distinct. -/
theorem intersect1dIdx_nodup (S A : List Nat) : (intersect1dIdx S A).Nodup := by
  apply List.Nodup.map_on
  · intro x hx y hy hxy
    simp only [List.mem_insertionSort, List.mem_dedup, List.mem_filter,
      decide_eq_true_eq] at hx hy
    have hx' : S.indexOf x < S.length := List.indexOf_lt_length.mpr hx.1
    have hy' : S.indexOf y < S.length := List.indexOf_lt_length.mpr hy.1
    have h1 : S.getD (S.indexOf x) 0 = x := by
      rw [List.getD_eq_getElem S 0 hx']
      exact List.getElem_indexOf hx'
    have h2 : S.getD (S.indexOf y) 0 = y := by
      rw [List.getD_eq_getElem S 0 hy']
      exact List.getElem_indexOf hy'
    rw [← h1, ← h2, hxy]
  · exact ((List.perm_insertionSort _ _).nodup_iff).mpr (List.nodup_dedup _)

/-- Every returned position indexes into `ar1`. -/
theorem intersect1dIdx_lt {S A : List Nat} {x : Nat} (hx : x ∈ intersect1dIdx S A) :
    x < S.length := by
  obtain ⟨v, hvS, _, rfl⟩ := intersect1dIdx_mem hx
  exact List.indexOf_lt_length.mpr hvS

/-- Filtering three pairwise value-disjoint lists yields pairwise disjoint
position lists whose total length does not exceed the row count. -/
theorem intersect1dIdx_three (S A B C : List Nat)
    (hAB : ∀ v ∈ A, v ∉ B) (hAC : ∀ v ∈ A, v ∉ C) (hBC : ∀ v ∈ B, v ∉ C) :
    (intersect1dIdx S A).Disjoint (intersect1dIdx S B)
    ∧ (intersect1dIdx S A).Disjoint (intersect1dIdx S C)
    ∧ (intersect1dIdx S B).Disjoint (intersect1dIdx S C)
    ∧ (intersect1dIdx S A).length + (intersect1dIdx S B).length
        + (intersect1dIdx S C).length ≤ S.length := by
  refine ⟨intersect1dIdx_disjoint hAB, intersect1dIdx_disjoint hAC,
    intersect1dIdx_disjoint hBC, ?_⟩
  have hnd : (intersect1dIdx S A ++ intersect1dIdx S B ++ intersect1dIdx S C).Nodup := by
    rw [List.nodup_append, List.nodup_append]
    refine ⟨⟨intersect1dIdx_nodup S A, intersect1dIdx_nodup S B,
      intersect1dIdx_disjoint hAB⟩, intersect1dIdx_nodup S C, ?_⟩
    intro x hx
    rcases List.mem_append.mp hx with h | h
    · exact intersect1dIdx_disjoint hAC h
    · exact intersect1dIdx_disjoint hBC h
  have hlt : ∀ x ∈ intersect1dIdx S A ++ intersect1dIdx S B ++ intersect1dIdx S C,
      x < S.length := by
    intro x hx
    rcases List.mem_append.mp hx with h | h
    · rcases List.mem_append.mp h with h' | h'
      · exact intersect1dIdx_lt h'
      · exact intersect1dIdx_lt h'
    · exact intersect1dIdx_lt h
  have hsub : (intersect1dIdx S A ++ intersect1dIdx S B
      ++ intersect1dIdx S C).toFinset ⊆ Finset.range S.length := by
    intro x hx
    simp only [Finset.mem_range]
    exact hlt x (List.mem_toFinset.mp hx)
  have hcard := Finset.card_le_card hsub
  rw [List.toFinset_card_of_nodup hnd, Finset.card_range] at hcard
  simp only [List.length_append] at hcard
  omega

/-- In a duplicate-free list, the dropped part avoids the taken part. -/
theorem drop_take_not_mem {l : List Nat} (h : l.Nodup) (k : Nat) :
    ∀ x ∈ l.drop k, x ∉ l.take k := by
  have hnd : ((l.take k) ++ (l.drop k)).Nodup := by rw [List.take_append_drop]; exact h
  intro x hx hx'
  exact (List.nodup_append.mp hnd).2.2 hx' hx

/-- The three value lists produced by the random-split branch are pairwise
disjoint, for any shuffles that permute their input. -/
theorem splitValueLists_pairwise (shuffle1 shuffle2 : List Nat → List Nat)
    (hs1 : ∀ l, (shuffle1 l).Perm l) (hs2 : ∀ l, (shuffle2 l).Perm l)
    (sampleIdx : List Nat) (hnd : sampleIdx.Nodup) (splitVal splitTest : ℚ) :
    (∀ x ∈ (splitValueLists shuffle1 shuffle2 sampleIdx splitVal splitTest).1,
      x ∉ (splitValueLists shuffle1 shuffle2 sampleIdx splitVal splitTest).2.1)
    ∧ (∀ x ∈ (splitValueLists shuffle1 shuffle2 sampleIdx splitVal splitTest).1,
      x ∉ (splitValueLists shuffle1 shuffle2 sampleIdx splitVal splitTest).2.2)
    ∧ (∀ x ∈ (splitValueLists shuffle1 shuffle2 sampleIdx splitVal splitTest).2.1,
      x ∉ (splitValueLists shuffle1 shuffle2 sampleIdx splitVal splitTest).2.2) := by
  simp only [splitValueLists]
  by_cases h1 : 0 < splitTest + splitVal
  · simp only [h1, if_true]
    have nodup1 : (shuffle1 sampleIdx).Nodup := (hs1 sampleIdx).nodup_iff.mpr hnd
    -- train = drop, valTest = take of shuffled sampleIdx
    set k := (Int.ceil ((splitVal + splitTest) * ((shuffle1 sampleIdx).length : ℚ))).toNat
    have hTrainVT : ∀ x ∈ (shuffle1 sampleIdx).drop k, x ∉ (shuffle1 sampleIdx).take k :=
      drop_take_not_mem nodup1 k
    have hVTnodup : ((shuffle1 sampleIdx).take k).Nodup :=
      nodup1.sublist (List.take_sublist k (shuffle1 sampleIdx))
    have nodup2 : (shuffle2 ((shuffle1 sampleIdx).take k)).Nodup :=
      (hs2 _).nodup_iff.mpr hVTnodup
    by_cases h2 : 0 < splitTest
    · simp only [h2, if_true, trainTestSplit]
      set m := (Int.ceil ((splitTest / (splitTest + splitVal))
        * ((shuffle2 ((shuffle1 sampleIdx).take k)).length : ℚ))).toNat
      have hsub : ∀ x ∈ shuffle2 ((shuffle1 sampleIdx).take k),
          x ∈ (shuffle1 sampleIdx).take k := fun x hx => (hs2 _).subset hx
      refine ⟨?_, ?_, ?_⟩
      · intro x hx hx'
        exact hTrainVT x hx (hsub x (List.drop_subset _ _ hx'))
      · intro x hx hx'
        exact hTrainVT x hx (hsub x (List.take_subset _ _ hx'))
      · exact drop_take_not_mem nodup2 m
    · simp only [h2, if_false]
      exact ⟨hTrainVT, fun x _ hx' => (List.not_mem_nil x) hx',
        fun x _ hx' => (List.not_mem_nil x) hx'⟩
  · simp only [h1, if_false]
    by_cases h2 : 0 < splitTest
    · simp only [h2, if_true, trainTestSplit]
      have hnil : shuffle2 [] = [] := (hs2 []).eq_nil
      rw [hnil]
      exact ⟨fun x _ hx' => by simp at hx', fun x _ hx' => by simp at hx',
        fun x hx _ => by simp at hx⟩
    · simp only [h2, if_false]
      exact ⟨fun x _ hx' => (List.not_mem_nil x) hx',
        fun x _ hx' => (List.not_mem_nil x) hx',
        fun x hx _ => (List.not_mem_nil x) hx⟩

/-- C3: for every dataset (`sample_idx` without duplicates — `df.index` or the
`np.arange(dataset_size)` default), every val/test fraction, and every seeded
shuffle pair (any functions permuting their input, covering every random
seed), the three index lists returned by `_get_split_indices` with no external
splits path are pairwise disjoint and their lengths sum to at most the task's
row count. -/
theorem c3_split_indices_disjoint (shuffle1 shuffle2 : List Nat → List Nat)
    (hs1 : ∀ l, (shuffle1 l).Perm l) (hs2 : ∀ l, (shuffle2 l).Perm l)
    (sampleIdx : List Nat) (hnd : sampleIdx.Nodup) (splitVal splitTest : ℚ) :
    (getSplitIndices shuffle1 shuffle2 sampleIdx splitVal splitTest).1.Disjoint
      (getSplitIndices shuffle1 shuffle2 sampleIdx splitVal splitTest).2.1
    ∧ (getSplitIndices shuffle1 shuffle2 sampleIdx splitVal splitTest).1.Disjoint
      (getSplitIndices shuffle1 shuffle2 sampleIdx splitVal splitTest).2.2
    ∧ (getSplitIndices shuffle1 shuffle2 sampleIdx splitVal splitTest).2.1.Disjoint
      (getSplitIndices shuffle1 shuffle2 sampleIdx splitVal splitTest).2.2
    ∧ (getSplitIndices shuffle1 shuffle2 sampleIdx splitVal splitTest).1.length
      + (getSplitIndices shuffle1 shuffle2 sampleIdx splitVal splitTest).2.1.length
      + (getSplitIndices shuffle1 shuffle2 sampleIdx splitVal splitTest).2.2.length
      ≤ sampleIdx.length := by
  obtain ⟨hAB, hAC, hBC⟩ := splitValueLists_pairwise shuffle1 shuffle2 hs1 hs2
    sampleIdx hnd splitVal splitTest
  simpa [getSplitIndices] using
    intersect1dIdx_three sampleIdx
      (splitValueLists shuffle1 shuffle2 sampleIdx splitVal splitTest).1
      (splitValueLists shuffle1 shuffle2 sampleIdx splitVal splitTest).2.1
      (splitValueLists shuffle1 shuffle2 sampleIdx splitVal splitTest).2.2
      hAB hAC hBC

/-- C3 witness: six rows, a quarter val and a quarter test, identity shuffle. -/
theorem c3_split_indices_disjoint_witness :
    (getSplitIndices (fun l => l) (fun l => l) (List.range 6) (1/4) (1/4)).1.Disjoint
      (getSplitIndices (fun l => l) (fun l => l) (List.range 6) (1/4) (1/4)).2.1
    ∧ (getSplitIndices (fun l => l) (fun l => l) (List.range 6) (1/4) (1/4)).1.Disjoint
      (getSplitIndices (fun l => l) (fun l => l) (List.range 6) (1/4) (1/4)).2.2
    ∧ (getSplitIndices (fun l => l) (fun l => l) (List.range 6) (1/4) (1/4)).2.1.Disjoint
      (getSplitIndices (fun l => l) (fun l => l) (List.range 6) (1/4) (1/4)).2.2
    ∧ (getSplitIndices (fun l => l) (fun l => l) (List.range 6) (1/4) (1/4)).1.length
      + (getSplitIndices (fun l => l) (fun l => l) (List.range 6) (1/4) (1/4)).2.1.length
      + (getSplitIndices (fun l => l) (fun l => l) (List.range 6) (1/4) (1/4)).2.2.length
      ≤ (List.range 6).length :=
  c3_split_indices_disjoint (fun l => l) (fun l => l)
    (fun l => List.Perm.refl l) (fun l => List.Perm.refl l)
    (List.range 6) (List.nodup_range 6) (1/4) (1/4)
